import Mathlib

set_option maxHeartbeats 1600000

/-!
Verification of the core of `src/src/App.jsx` (the `iconnect` repository):
the haversine distance function `calculateDistance`, the two-tier
`fetchMasjids` resolver with its static `MOCK_MASJIDS` fallback, the
geolocation `useEffect` callback, and the admin-portal `saveToDb` handler.
JavaScript numbers are modelled as real numbers; the `async` resolver is
modelled as a total function on an explicit component state, with the
remote collaborator's behaviour (the `supabase.rpc` call) passed in as a
parameter; a thrown JavaScript exception is modelled with `Except`.
-/

noncomputable section

/-- Model of the JavaScript built-in `Math.atan2 (y, x)` over the reals
(signed zeros are not distinguishable in this model). -/
def atan2 (y x : ℝ) : ℝ :=
  if 0 < x then Real.arctan (y / x)
  else if x < 0 then
    (if 0 ≤ y then Real.arctan (y / x) + Real.pi else Real.arctan (y / x) - Real.pi)
  else
    (if 0 < y then Real.pi / 2 else if y < 0 then -(Real.pi / 2) else 0)

/-- Intermediate value `a` of `calculateDistance` (App.jsx lines 40-44):
`a = sin(dLat/2)^2 + cos(lat1 rad) * cos(lat2 rad) * sin(dLng/2)^2` with
`dLat = (lat2 - lat1) * PI / 180` and `dLng = (lng2 - lng1) * PI / 180`.
The source computes no clamp on this value. -/
def haversineA (lat1 lng1 lat2 lng2 : ℝ) : ℝ :=
  Real.sin ((lat2 - lat1) * Real.pi / 180 / 2) * Real.sin ((lat2 - lat1) * Real.pi / 180 / 2) +
    Real.cos (lat1 * Real.pi / 180) * Real.cos (lat2 * Real.pi / 180) *
      Real.sin ((lng2 - lng1) * Real.pi / 180 / 2) *
      Real.sin ((lng2 - lng1) * Real.pi / 180 / 2)

/-- Model of `calculateDistance` (App.jsx lines 38-47): haversine distance in
meters with Earth radius `R = 6371000`;
`c = 2 * atan2 (sqrt a, sqrt (1 - a))`, result `R * c`. -/
def calculateDistance (lat1 lng1 lat2 lng2 : ℝ) : ℝ :=
  6371000 *
    (2 * atan2 (Real.sqrt (haversineA lat1 lng1 lat2 lng2))
      (Real.sqrt (1 - haversineA lat1 lng1 lat2 lng2)))

/-- The five named jamaat-time display strings of a masjid record. -/
structure JamaatTimes where
  fajr : String
  dhuhr : String
  asr : String
  maghrib : String
  isha : String
deriving DecidableEq

/-- A masjid record as used throughout App.jsx (id, name, coordinate,
jamaat times, distance in meters). -/
structure Masjid where
  id : String
  name : String
  lat : ℝ
  lng : ℝ
  jamaat_times : JamaatTimes
  dist_meters : ℝ

/-- Model of the static dataset `MOCK_MASJIDS` (App.jsx lines 18-35). -/
def MOCK_MASJIDS : List Masjid :=
  [ { id := "demo-1", name := "Grand Masjid Al-Noor", lat := 21.4225, lng := 39.8262,
      jamaat_times :=
        { fajr := "05:15 AM", dhuhr := "12:30 PM", asr := "03:45 PM",
          maghrib := "05:50 PM", isha := "07:15 PM" },
      dist_meters := 500 },
    { id := "demo-2", name := "Community Islamic Center", lat := 21.4300, lng := 39.8350,
      jamaat_times :=
        { fajr := "05:30 AM", dhuhr := "01:00 PM", asr := "04:00 PM",
          maghrib := "06:05 PM", isha := "07:30 PM" },
      dist_meters := 500 } ]

/-- The component state touched by `fetchMasjids`: the `masjids` list state
and the `dbError` flag (App.jsx lines 52, 54). The `dbError` flag is what
the presentation layer uses as the provenance / degraded-mode tag. -/
structure AppState where
  masjids : List Masjid
  dbError : Bool

/-- Initial component state (App.jsx lines 52, 54): `masjids` starts as
`MOCK_MASJIDS` and `dbError` starts as `!supabase`, i.e. true exactly when
the supabase client is not configured. -/
def initialState (configured : Bool) : AppState :=
  { masjids := MOCK_MASJIDS, dbError := !configured }

/-- Provenance tag derived from the `dbError` flag: the UI shows the
degraded-mode banner (local fallback) exactly when `dbError` is set. -/
def provenanceTag (st : AppState) : String :=
  if st.dbError then "local-fallback" else "remote"

/-- Behaviour of one `supabase.rpc ("nearby_masjids", ...)` call: either the
awaited call throws (network failure, malformed response, or the null
client of an unconfigured backend), or it resolves to a `{ data, error }`
pair whose fields may each be absent. -/
inductive RemoteBehavior where
  | throws (msg : String)
  | returns (error : Option String) (data : Option (List Masjid))

/-- A remote behaviour that raises: the call throws, or resolves with a
non-null `error` field which line 68 re-throws (`if (error) throw error`). -/
def RemoteBehavior.raises : RemoteBehavior → Prop
  | .throws _ => True
  | .returns (some _) _ => True
  | .returns none _ => False

/-- The `try` block of `fetchMasjids` (App.jsx lines 66-69): await the rpc
(propagating a throw), re-throw a non-null `error`, and update the
`masjids` state only when `data` is non-null and non-empty. -/
def tryRemote (b : RemoteBehavior) (st : AppState) : Except String AppState :=
  match b with
  | .throws msg => .error msg
  | .returns (some e) _ => .error e
  | .returns none (some data) =>
      if 0 < data.length then .ok { st with masjids := data } else .ok st
  | .returns none none => .ok st

/-- The `catch` block of `fetchMasjids` (App.jsx lines 70-78): set
`dbError` and replace `masjids` by the static dataset, each entry copied
with `dist_meters` recomputed by `calculateDistance` from the caller's
coordinate (the spread `{...masjid, dist_meters: ...}` builds a fresh
object per entry). -/
def applyFallback (lat lng : ℝ) (_st : AppState) : AppState :=
  { masjids :=
      MOCK_MASJIDS.map fun m =>
        { m with dist_meters := calculateDistance lat lng m.lat m.lng },
    dbError := true }

/-- Model of `fetchMasjids` (App.jsx lines 65-80): run the `try` block; on
any raised exception run the `catch` block. The codomain `Except` records
whether an exception escapes the function; the `catch` always recovers. -/
def fetchMasjids (b : RemoteBehavior) (lat lng : ℝ) (st : AppState) :
    Except String AppState :=
  match tryRemote b st with
  | .ok st2 => .ok st2
  | .error _ => .ok (applyFallback lat lng st)

/-- `fetchMasjids` as reached through the module-level `supabase` client
(App.jsx lines 13-15): when the client is not configured, `supabase` is
null and `supabase.rpc` itself throws a TypeError inside the `try`. -/
def fetchMasjidsConfigured (configured : Bool) (b : RemoteBehavior) (lat lng : ℝ)
    (st : AppState) : Except String AppState :=
  fetchMasjids (if configured then b else .throws "Cannot read properties of null") lat lng st

/-- Result of one `navigator.geolocation.getCurrentPosition` request:
success with a coordinate, or denial/failure. -/
inductive GeoResult where
  | success (lat lng : ℝ)
  | failure

/-- Observable outcome of one run of the `useEffect` geolocation callback
(App.jsx lines 56-63): the resulting `userLoc` state and the list of
`fetchMasjids` invocations it triggered, in order with their arguments. -/
structure EffectRun where
  userLoc : ℝ × ℝ
  fetchCalls : List (ℝ × ℝ)

/-- Model of the `useEffect` callback body (App.jsx lines 56-63): on
success, `setUserLoc` to the resolved coordinate and call
`fetchMasjids (latitude, longitude)` only when `!supabase`, i.e. only when
the backend client is NOT configured; on denial, only log, leaving
`userLoc` at its previous (default) value. -/
def geolocationCallback (configured : Bool) (prevLoc : ℝ × ℝ) (g : GeoResult) : EffectRun :=
  match g with
  | .success lat lng =>
      { userLoc := (lat, lng),
        fetchCalls := if configured then [] else [(lat, lng)] }
  | .failure => { userLoc := prevLoc, fetchCalls := [] }

/-- The admin form state (App.jsx line 284): name, coordinate, and the five
jamaat time strings. -/
structure AdminForm where
  name : String
  lat : ℝ
  lng : ℝ
  timings : JamaatTimes

/-- Initial admin form state (App.jsx line 284). -/
def initialForm : AdminForm :=
  { name := "", lat := 21.4225, lng := 39.8262,
    timings := { fajr := "", dhuhr := "", asr := "", maghrib := "", isha := "" } }

/-- Outcome of one `saveToDb` click (App.jsx lines 286-291): either the
early-return alert when the client is not configured, or a call of
`supabase.from ("masjids").insert (...)` carrying the row payload that was
passed to `insert` (`none` when `insert` is called with no argument). -/
inductive SaveResult where
  | alertConnect
  | insertCalled (payload : Option AdminForm)

/-- Model of `saveToDb` (App.jsx lines 286-291): without a configured
client it alerts and returns; otherwise it calls
`supabase.from ("masjids").insert ()` with NO argument, so the payload is
`none` whatever the form state holds - the form is never read here. -/
def saveToDb (configured : Bool) (_form : AdminForm) : SaveResult :=
  if configured then .insertCalled none else .alertConnect

end

/-! Theorems -/

/-- Helper: `atan2 y x` is non-negative whenever both arguments are. -/
theorem atan2_nonneg {y x : ℝ} (hy : 0 ≤ y) (hx : 0 ≤ x) : 0 ≤ atan2 y x := by
  unfold atan2
  rcases lt_or_eq_of_le hx with hx0 | hx0
  · rw [if_pos hx0]
    have : (0 : ℝ) ≤ y / x := div_nonneg hy (le_of_lt hx0)
    have h1 : Real.arctan 0 ≤ Real.arctan (y / x) := Real.arctan_strictMono.monotone this
    simpa [Real.arctan_zero] using h1
  · rw [if_neg (by rw [← hx0]; exact lt_irrefl 0), if_neg (by rw [← hx0]; exact lt_irrefl 0)]
    rcases lt_or_eq_of_le hy with hy0 | hy0
    · rw [if_pos hy0]
      positivity
    · rw [if_neg (by rw [← hy0]; exact lt_irrefl 0), if_neg (by rw [← hy0]; exact lt_irrefl 0)]

/-- Helper: `calculateDistance` never returns a negative value. -/
theorem calculateDistance_nonneg (lat1 lng1 lat2 lng2 : ℝ) :
    0 ≤ calculateDistance lat1 lng1 lat2 lng2 := by
  unfold calculateDistance
  have h := atan2_nonneg (Real.sqrt_nonneg (haversineA lat1 lng1 lat2 lng2))
    (Real.sqrt_nonneg (1 - haversineA lat1 lng1 lat2 lng2))
  positivity

/-- C1 counterexample: when the remote query succeeds with zero records
(`data = []`, no error), `fetchMasjids` leaves the state unchanged: the
result keeps `dbError = false`, so it carries the "remote" tag, not the
claimed "local-fallback" tag, and no distance annotation happens. -/
theorem C1_empty_success_counterexample :
    fetchMasjids (.returns none (some [])) 0 0 (initialState true) =
        .ok (initialState true) ∧
      (initialState true).dbError = false ∧
      provenanceTag (initialState true) = "remote" :=
  ⟨rfl, rfl, rfl⟩

/-- C1 amended: whenever the remote tier is unconfigured or the remote call
throws or resolves with an error, `fetchMasjids` returns the fallback
state: `dbError` set (tag "local-fallback"), `masjids` exactly the static
dataset mapped through `calculateDistance` from the caller's coordinate,
with the same count and each distance non-negative. An empty successful
response does NOT take this path (see the counterexample). -/
theorem C1_fallback_amended (configured : Bool) (b : RemoteBehavior) (lat lng : ℝ)
    (st : AppState) (h : configured = false ∨ b.raises) :
    fetchMasjidsConfigured configured b lat lng st = .ok (applyFallback lat lng st) ∧
      (applyFallback lat lng st).masjids =
        MOCK_MASJIDS.map (fun m =>
          { m with dist_meters := calculateDistance lat lng m.lat m.lng }) ∧
      (applyFallback lat lng st).masjids.length = MOCK_MASJIDS.length ∧
      (applyFallback lat lng st).dbError = true ∧
      provenanceTag (applyFallback lat lng st) = "local-fallback" ∧
      ∀ e ∈ (applyFallback lat lng st).masjids, 0 ≤ e.dist_meters := by
  refine ⟨?_, rfl, by simp [applyFallback], rfl, rfl, ?_⟩
  · rcases h with h | h
    · subst h
      rfl
    · cases configured
      · rfl
      · cases b with
        | throws msg => rfl
        | returns e d =>
            cases e with
            | some msg => rfl
            | none => exact absurd h (by simp [RemoteBehavior.raises])
  · intro e he
    simp only [applyFallback, List.mem_map] at he
    obtain ⟨m, _, rfl⟩ := he
    exact calculateDistance_nonneg lat lng m.lat m.lng

/-- C1 witness: the amended theorem applied with an unconfigured backend at
the origin coordinate and the initial state. -/
theorem C1_fallback_amended_witness :
    fetchMasjidsConfigured false (.returns none none) 0 0 (initialState false) =
        .ok (applyFallback 0 0 (initialState false)) ∧
      (applyFallback 0 0 (initialState false)).masjids.length = MOCK_MASJIDS.length ∧
      provenanceTag (applyFallback 0 0 (initialState false)) = "local-fallback" :=
  ⟨(C1_fallback_amended false (.returns none none) 0 0 (initialState false) (Or.inl rfl)).1,
   (C1_fallback_amended false (.returns none none) 0 0 (initialState false) (Or.inl rfl)).2.2.1,
   (C1_fallback_amended false (.returns none none) 0 0 (initialState false) (Or.inl rfl)).2.2.2.2.1⟩

/-- C2: evaluation of the geolocation callback model. With a CONFIGURED
backend a successful location fix updates `userLoc` but triggers NO
`fetchMasjids` call (the source guards the call with `if (!supabase)`);
only with an unconfigured backend is exactly one call triggered with the
resolved coordinate. This exhibits the divergence from the claim that a
successful fix always triggers one resolution attempt. -/
theorem C2_location_callback_eval :
    (geolocationCallback true (21.4225, 39.8262) (.success 10 20)).fetchCalls = [] ∧
      (geolocationCallback true (21.4225, 39.8262) (.success 10 20)).userLoc = (10, 20) ∧
      (geolocationCallback false (21.4225, 39.8262) (.success 10 20)).fetchCalls = [(10, 20)] :=
  ⟨rfl, rfl, rfl⟩

/-- C3: evaluation of `saveToDb` with a configured backend and a fully
filled form: the insert is called with payload `none` - the form state is
never submitted - contradicting the claim that the entry described by the
form is inserted. -/
theorem C3_saveToDb_eval :
    saveToDb true
        { name := "Masjid A", lat := 21.4225, lng := 39.8262,
          timings :=
            { fajr := "05:15 AM", dhuhr := "12:30 PM", asr := "03:45 PM",
              maghrib := "05:50 PM", isha := "07:15 PM" } } =
        .insertCalled none ∧
      ∀ f : AdminForm, (SaveResult.insertCalled none) ≠ .insertCalled (some f) := by
  refine ⟨rfl, fun f h => ?_⟩
  cases h

/-- C6: if the remote query resolves with no error and a non-empty `data`
list, the result state is exactly the prior state with `masjids` replaced
by that list unmodified; `dbError` is untouched, so starting from a
non-degraded state the result keeps the "remote" tag, and the fallback
tier is not executed. -/
theorem C6_remote_nonempty (lat lng : ℝ) (st : AppState) (data : List Masjid)
    (hd : 0 < data.length) (hst : st.dbError = false) :
    fetchMasjids (.returns none (some data)) lat lng st = .ok { st with masjids := data } ∧
      ({ st with masjids := data } : AppState).masjids = data ∧
      ({ st with masjids := data } : AppState).dbError = false ∧
      provenanceTag { st with masjids := data } = "remote" := by
  refine ⟨?_, rfl, hst, ?_⟩
  · simp only [fetchMasjids, tryRemote, if_pos hd]
  · unfold provenanceTag
    rw [hst]
    rfl

/-- C6 witness: the theorem applied to the concrete two-element static
dataset as remote payload, from the initial configured state. -/
theorem C6_remote_nonempty_witness :
    fetchMasjids (.returns none (some MOCK_MASJIDS)) 0 0 (initialState true) =
        .ok { initialState true with masjids := MOCK_MASJIDS } ∧
      provenanceTag { initialState true with masjids := MOCK_MASJIDS } = "remote" :=
  ⟨(C6_remote_nonempty 0 0 (initialState true) MOCK_MASJIDS (by simp [MOCK_MASJIDS]) rfl).1,
   (C6_remote_nonempty 0 0 (initialState true) MOCK_MASJIDS (by simp [MOCK_MASJIDS]) rfl).2.2.2⟩

/-- C7: for every remote behaviour and every coordinate and state, the
resolver returns an ordinary state (`Except.ok`): no exception propagates
to the caller; and whenever the remote tier raises, the result is exactly
the fallback path applied to the caller's coordinate. -/
theorem C7_no_exception_propagation (b : RemoteBehavior) (lat lng : ℝ) (st : AppState) :
    (∃ st2, fetchMasjids b lat lng st = .ok st2) ∧
      ∀ msg, tryRemote b st = .error msg →
        fetchMasjids b lat lng st = .ok (applyFallback lat lng st) := by
  constructor
  · unfold fetchMasjids
    cases h : tryRemote b st with
    | ok st2 => exact ⟨st2, rfl⟩
    | error msg => exact ⟨applyFallback lat lng st, rfl⟩
  · intro msg h
    unfold fetchMasjids
    rw [h]

/-- C7 witness: the theorem applied to a throwing remote call at the origin
coordinate from the unconfigured initial state. -/
theorem C7_no_exception_propagation_witness :
    fetchMasjids (.throws "network failure") 0 0 (initialState false) =
      .ok (applyFallback 0 0 (initialState false)) :=
  (C7_no_exception_propagation (.throws "network failure") 0 0 (initialState false)).2
    "network failure" rfl

/-- C10: the local fallback tier maps the static dataset entrywise: each
produced entry agrees with the corresponding `MOCK_MASJIDS` entry on `id`,
`name`, `lat`, `lng` and `jamaat_times`, and only `dist_meters` is
replaced by the freshly computed `calculateDistance` value; the statement
is against `MOCK_MASJIDS` itself, which still holds its original entries
(the model is pure, matching the source's per-entry object spread that
never mutates the dataset). -/
theorem C10_fallback_preserves_fields (lat lng : ℝ) :
    List.Forall₂
      (fun e m =>
        e.id = m.id ∧ e.name = m.name ∧ e.lat = m.lat ∧ e.lng = m.lng ∧
          e.jamaat_times = m.jamaat_times ∧
          e.dist_meters = calculateDistance lat lng m.lat m.lng)
      (applyFallback lat lng (initialState true)).masjids MOCK_MASJIDS := by
  unfold applyFallback MOCK_MASJIDS
  exact .cons ⟨rfl, rfl, rfl, rfl, rfl, rfl⟩ (.cons ⟨rfl, rfl, rfl, rfl, rfl, rfl⟩ .nil)

/-- Helper: the haversine intermediate value is symmetric in the two
coordinates. -/
theorem haversineA_comm (lat1 lng1 lat2 lng2 : ℝ) :
    haversineA lat2 lng2 lat1 lng1 = haversineA lat1 lng1 lat2 lng2 := by
  unfold haversineA
  have h1 : (lat1 - lat2) * Real.pi / 180 / 2 = -((lat2 - lat1) * Real.pi / 180 / 2) := by ring
  have h2 : (lng1 - lng2) * Real.pi / 180 / 2 = -((lng2 - lng1) * Real.pi / 180 / 2) := by ring
  rw [h1, h2, Real.sin_neg, Real.sin_neg]
  ring

/-- C8: the distance function is symmetric in its two coordinate arguments
for all valid latitudes and longitudes. -/
theorem C8_distance_symm (lat1 lng1 lat2 lng2 : ℝ)
    (h1 : -90 ≤ lat1) (h2 : lat1 ≤ 90) (h3 : -180 ≤ lng1) (h4 : lng1 ≤ 180)
    (h5 : -90 ≤ lat2) (h6 : lat2 ≤ 90) (h7 : -180 ≤ lng2) (h8 : lng2 ≤ 180) :
    calculateDistance lat1 lng1 lat2 lng2 = calculateDistance lat2 lng2 lat1 lng1 := by
  unfold calculateDistance
  rw [haversineA_comm lat1 lng1 lat2 lng2]

/-- C8 witness: symmetry applied at the concrete valid pair (1,2), (3,4). -/
theorem C8_distance_symm_witness :
    calculateDistance 1 2 3 4 = calculateDistance 3 4 1 2 :=
  C8_distance_symm 1 2 3 4 (by norm_num) (by norm_num) (by norm_num) (by norm_num)
    (by norm_num) (by norm_num) (by norm_num) (by norm_num)

/-- C9 counterexample: the two VALID coordinate pairs (90, 0) and (90, 10)
are distinct, yet their distance is exactly 0 (both denote the north pole,
where the longitude term is annihilated by cos (pi/2) = 0), refuting
"distinct valid coordinates have a nonzero distance". -/
theorem C9_distinct_zero_counterexample :
    calculateDistance 90 0 90 10 = 0 ∧
      ((90 : ℝ), (0 : ℝ)) ≠ ((90 : ℝ), (10 : ℝ)) := by
  constructor
  · unfold calculateDistance
    have hA : haversineA 90 0 90 10 = 0 := by
      unfold haversineA
      have h : (90 : ℝ) * Real.pi / 180 = Real.pi / 2 := by ring
      rw [h, Real.cos_pi_div_two]
      norm_num [Real.sin_zero]
    rw [hA]
    rw [show (1 : ℝ) - 0 = 1 by norm_num, Real.sqrt_zero, Real.sqrt_one]
    unfold atan2
    rw [if_pos (by norm_num : (0 : ℝ) < 1)]
    norm_num [Real.arctan_zero]
  · intro hcontra
    have h := congrArg Prod.snd hcontra
    norm_num at h

/-- C9 amended: the self-distance is exactly zero for every coordinate (the
converse direction fails, see the counterexample). -/
theorem C9_self_distance_amended (lat lng : ℝ) :
    calculateDistance lat lng lat lng = 0 := by
  unfold calculateDistance
  have hA : haversineA lat lng lat lng = 0 := by
    unfold haversineA
    simp
  rw [hA]
  rw [show (1 : ℝ) - 0 = 1 by norm_num, Real.sqrt_zero, Real.sqrt_one]
  unfold atan2
  rw [if_pos (by norm_num : (0 : ℝ) < 1)]
  norm_num [Real.arctan_zero]

/-- C4: evaluation of the real-valued model at the antipodal pair (0,0) and
(0,180): the result is exactly 6371000 * pi, which lies strictly between
20015086 and 20015087 meters. In exact real arithmetic the intermediate
value is exactly 1 and no clamp is needed; the missing clamp in the source
only matters under floating-point evaluation, where the unclamped value
can exceed 1 (see the recorded failing input). -/
theorem C4_antipodal_eval :
    calculateDistance 0 0 0 180 = 6371000 * Real.pi ∧
      20015086 < 6371000 * Real.pi ∧ 6371000 * Real.pi < 20015087 := by
  refine ⟨?_, by linarith [Real.pi_gt_d20], by linarith [Real.pi_lt_d20]⟩
  unfold calculateDistance
  have hA : haversineA 0 0 0 180 = 1 := by
    unfold haversineA
    have h : ((180 : ℝ) - 0) * Real.pi / 180 / 2 = Real.pi / 2 := by ring
    rw [h, Real.sin_pi_div_two]
    norm_num [Real.sin_zero, Real.cos_zero]
  rw [hA]
  rw [show (1 : ℝ) - 1 = 0 by norm_num, Real.sqrt_zero, Real.sqrt_one]
  unfold atan2
  rw [if_neg (lt_irrefl (0 : ℝ)), if_neg (lt_irrefl (0 : ℝ)),
    if_pos (by norm_num : (0 : ℝ) < 1)]
  ring

/-- Helper: arctan is dominated by its argument on the nonnegative axis. -/
theorem arctan_le_self_of_nonneg {u : ℝ} (hu : 0 ≤ u) : Real.arctan u ≤ u := by
  rcases eq_or_lt_of_le hu with h | h
  · simp [← h, Real.arctan_zero]
  · have h1 : 0 < Real.arctan u := by
      have h2 := Real.arctan_strictMono h
      rwa [Real.arctan_zero] at h2
    have h3 := Real.lt_tan h1 (Real.arctan_lt_pi_div_two u)
    rw [Real.tan_arctan] at h3
    exact le_of_lt h3

/-- Helper: a lower bound on arctan from a tangent comparison. -/
theorem le_arctan_of_tan_le {q u : ℝ} (hq0 : 0 ≤ q) (hq1 : q < Real.pi / 2)
    (h : Real.tan q ≤ u) : q ≤ Real.arctan u := by
  have hneg : -(Real.pi / 2) < q := lt_of_lt_of_le (by linarith [Real.pi_pos]) hq0
  have h2 : Real.arctan (Real.tan q) = q := Real.arctan_tan hneg hq1
  rw [← h2]
  exact Real.arctan_strictMono.monotone h

/-- Helper: verified rational interval for the haversine intermediate value
at the two static-dataset coordinates, via the Taylor bounds on sin and cos
and the 6-digit rational bounds on pi. -/
theorem fixture_haversineA_bounds :
    (0.0000000093739 : ℝ) ≤ haversineA 21.4225 39.8262 21.43 39.835 ∧
      haversineA 21.4225 39.8262 21.43 39.835 ≤ 0.0000000093964 := by
  have hpil : (3.141592 : ℝ) < Real.pi := Real.pi_gt_d6
  have hpiu : Real.pi < 3.141593 := Real.pi_lt_d6
  unfold haversineA
  set p : ℝ := ((21.43 : ℝ) - 21.4225) * Real.pi / 180 / 2 with hp
  set q : ℝ := ((39.835 : ℝ) - 39.8262) * Real.pi / 180 / 2 with hq
  set b1 : ℝ := (21.4225 : ℝ) * Real.pi / 180 with hb1
  set b2 : ℝ := (21.43 : ℝ) * Real.pi / 180 with hb2
  have hp_l : (0.0000654498 : ℝ) ≤ p := by rw [hp]; linarith
  have hp_u : p ≤ 0.0000654499 := by rw [hp]; linarith
  have hp_pos : (0 : ℝ) < p := by linarith
  have hsp_u : Real.sin p ≤ 0.0000654499 := le_trans (le_of_lt (Real.sin_lt hp_pos)) hp_u
  have hp_cube : p ^ 3 ≤ (0.0000654499 : ℝ) ^ 3 := pow_le_pow_left (le_of_lt hp_pos) hp_u 3
  have hp_cube_num : ((0.0000654499 : ℝ)) ^ 3 ≤ 0.0000000000002804 := by norm_num
  have hsp_l : (0.0000654497 : ℝ) ≤ Real.sin p := by
    have h := Real.sin_gt_sub_cube hp_pos (by linarith)
    linarith
  have hq_l : (0.00007679447 : ℝ) ≤ q := by rw [hq]; linarith
  have hq_u : q ≤ 0.0000767945 := by rw [hq]; linarith
  have hq_pos : (0 : ℝ) < q := by linarith
  have hsq_u : Real.sin q ≤ 0.0000767945 := le_trans (le_of_lt (Real.sin_lt hq_pos)) hq_u
  have hq_cube : q ^ 3 ≤ (0.0000767945 : ℝ) ^ 3 := pow_le_pow_left (le_of_lt hq_pos) hq_u 3
  have hq_cube_num : ((0.0000767945 : ℝ)) ^ 3 ≤ 0.000000000000453 := by norm_num
  have hsq_l : (0.00007679446 : ℝ) ≤ Real.sin q := by
    have h := Real.sin_gt_sub_cube hq_pos (by linarith)
    linarith
  have hb1_l : (0.373893 : ℝ) ≤ b1 := by rw [hb1]; linarith
  have hb1_u : b1 ≤ 0.3738933 := by rw [hb1]; linarith
  have hb1_pos : (0 : ℝ) < b1 := by linarith
  have hb1_abs : |b1| ≤ 1 := by rw [abs_of_pos hb1_pos]; linarith
  have hcb1 := abs_le.mp (@Real.cos_bound b1 hb1_abs)
  rw [abs_of_pos hb1_pos] at hcb1
  have hb1_sq_u : b1 ^ 2 ≤ 0.1397962 :=
    le_trans (pow_le_pow_left (le_of_lt hb1_pos) hb1_u 2) (by norm_num)
  have hb1_sq_l : (0.13979597 : ℝ) ≤ b1 ^ 2 :=
    le_trans (by norm_num) (pow_le_pow_left (by norm_num) hb1_l 2)
  have hb1_p4_u : b1 ^ 4 ≤ 0.01954298 :=
    le_trans (pow_le_pow_left (le_of_lt hb1_pos) hb1_u 4) (by norm_num)
  have hc1_l : (0.929084 : ℝ) ≤ Real.cos b1 := by linarith [hcb1.1]
  have hc1_u : Real.cos b1 ≤ 0.9311199 := by linarith [hcb1.2]
  have hb2_l : (0.3740239 : ℝ) ≤ b2 := by rw [hb2]; linarith
  have hb2_u : b2 ≤ 0.3740241 := by rw [hb2]; linarith
  have hb2_pos : (0 : ℝ) < b2 := by linarith
  have hb2_abs : |b2| ≤ 1 := by rw [abs_of_pos hb2_pos]; linarith
  have hcb2 := abs_le.mp (@Real.cos_bound b2 hb2_abs)
  rw [abs_of_pos hb2_pos] at hcb2
  have hb2_sq_u : b2 ^ 2 ≤ 0.13989403 :=
    le_trans (pow_le_pow_left (le_of_lt hb2_pos) hb2_u 2) (by norm_num)
  have hb2_sq_l : (0.13989387 : ℝ) ≤ b2 ^ 2 :=
    le_trans (by norm_num) (pow_le_pow_left (by norm_num) hb2_l 2)
  have hb2_p4_u : b2 ^ 4 ≤ 0.01957034 :=
    le_trans (pow_le_pow_left (le_of_lt hb2_pos) hb2_u 4) (by norm_num)
  have hc2_l : (0.9290336 : ℝ) ≤ Real.cos b2 := by linarith [hcb2.1]
  have hc2_u : Real.cos b2 ≤ 0.9310724 := by linarith [hcb2.2]
  have hsp_nn : (0 : ℝ) ≤ Real.sin p := by linarith
  have hsq_nn : (0 : ℝ) ≤ Real.sin q := by linarith
  have hc1_nn : (0 : ℝ) ≤ Real.cos b1 := by linarith
  have hc2_nn : (0 : ℝ) ≤ Real.cos b2 := by linarith
  have hcc_l : (0.929084 : ℝ) * 0.9290336 ≤ Real.cos b1 * Real.cos b2 :=
    mul_le_mul hc1_l hc2_l (by norm_num) hc1_nn
  have hcc_u : Real.cos b1 * Real.cos b2 ≤ 0.9311199 * 0.9310724 :=
    mul_le_mul hc1_u hc2_u hc2_nn (by norm_num)
  have hcc_nn : (0 : ℝ) ≤ Real.cos b1 * Real.cos b2 := mul_nonneg hc1_nn hc2_nn
  have hccs_l : (0.929084 : ℝ) * 0.9290336 * 0.00007679446 ≤
      Real.cos b1 * Real.cos b2 * Real.sin q :=
    mul_le_mul hcc_l hsq_l (by norm_num) hcc_nn
  have hccs_u : Real.cos b1 * Real.cos b2 * Real.sin q ≤
      0.9311199 * 0.9310724 * 0.0000767945 :=
    mul_le_mul hcc_u hsq_u hsq_nn (by norm_num)
  have hccss_l : (0.929084 : ℝ) * 0.9290336 * 0.00007679446 * 0.00007679446 ≤
      Real.cos b1 * Real.cos b2 * Real.sin q * Real.sin q :=
    mul_le_mul hccs_l hsq_l (by norm_num) (mul_nonneg hcc_nn hsq_nn)
  have hccss_u : Real.cos b1 * Real.cos b2 * Real.sin q * Real.sin q ≤
      0.9311199 * 0.9310724 * 0.0000767945 * 0.0000767945 :=
    mul_le_mul hccs_u hsq_u hsq_nn (by norm_num)
  have hss_l : (0.0000654497 : ℝ) * 0.0000654497 ≤ Real.sin p * Real.sin p :=
    mul_le_mul hsp_l hsp_l (by norm_num) hsp_nn
  have hss_u : Real.sin p * Real.sin p ≤ 0.0000654499 * 0.0000654499 :=
    mul_le_mul hsp_u hsp_u hsp_nn (by norm_num)
  constructor
  · linarith [hss_l, hccss_l]
  · linarith [hss_u, hccss_u]

/-- Helper: verified interval for the model distance between the two
static-dataset coordinates: it lies in [1230, 1240] meters. -/
theorem fixture_distance_bounds :
    (1230 : ℝ) ≤ calculateDistance 21.4225 39.8262 21.43 39.835 ∧
      calculateDistance 21.4225 39.8262 21.43 39.835 ≤ 1240 := by
  obtain ⟨hAl, hAu⟩ := fixture_haversineA_bounds
  unfold calculateDistance
  set A : ℝ := haversineA 21.4225 39.8262 21.43 39.835 with hAdef
  have hA_pos : (0 : ℝ) < A := by linarith
  have h1A_pos : (0 : ℝ) < 1 - A := by linarith
  have hx_pos : 0 < Real.sqrt (1 - A) := Real.sqrt_pos.mpr h1A_pos
  have hat : atan2 (Real.sqrt A) (Real.sqrt (1 - A)) =
      Real.arctan (Real.sqrt A / Real.sqrt (1 - A)) := by
    unfold atan2
    rw [if_pos hx_pos]
  rw [hat]
  have hsqA_l : (0.000096818 : ℝ) ≤ Real.sqrt A := by
    apply (Real.le_sqrt (by norm_num) (le_of_lt hA_pos)).mpr
    calc ((0.000096818 : ℝ)) ^ 2 ≤ 0.0000000093739 := by norm_num
      _ ≤ A := hAl
  have hsqA_u : Real.sqrt A ≤ 0.000096936 := by
    apply Real.sqrt_le_iff.mpr
    refine ⟨by norm_num, ?_⟩
    calc A ≤ 0.0000000093964 := hAu
      _ ≤ ((0.000096936 : ℝ)) ^ 2 := by norm_num
  have hsq1A_u : Real.sqrt (1 - A) ≤ 1 := by
    apply Real.sqrt_le_iff.mpr
    refine ⟨by norm_num, ?_⟩
    nlinarith [hA_pos]
  have hsq1A_l : (0.99999 : ℝ) ≤ Real.sqrt (1 - A) := by
    apply (Real.le_sqrt (by norm_num) (le_of_lt h1A_pos)).mpr
    calc ((0.99999 : ℝ)) ^ 2 ≤ 1 - 0.0000000093964 := by norm_num
      _ ≤ 1 - A := by linarith
  have hu_l : (0.000096818 : ℝ) ≤ Real.sqrt A / Real.sqrt (1 - A) := by
    have h2 : Real.sqrt A ≤ Real.sqrt A / Real.sqrt (1 - A) := by
      rw [le_div_iff hx_pos]
      calc Real.sqrt A * Real.sqrt (1 - A) ≤ Real.sqrt A * 1 :=
            mul_le_mul_of_nonneg_left hsq1A_u (Real.sqrt_nonneg A)
        _ = Real.sqrt A := mul_one _
    linarith
  have hu_u : Real.sqrt A / Real.sqrt (1 - A) ≤ 0.000096937 := by
    have h3 : Real.sqrt A / Real.sqrt (1 - A) ≤ 0.000096936 / 0.99999 :=
      div_le_div (by norm_num) hsqA_u (by norm_num) hsq1A_l
    calc Real.sqrt A / Real.sqrt (1 - A) ≤ 0.000096936 / 0.99999 := h3
      _ ≤ 0.000096937 := by norm_num
  have hth_u : Real.arctan (Real.sqrt A / Real.sqrt (1 - A)) ≤ 0.000096937 :=
    le_trans (arctan_le_self_of_nonneg (by positivity)) hu_u
  have htan : Real.tan 0.0000966 ≤ 0.000096818 := by
    have hq0pos : (0 : ℝ) < 0.0000966 := by norm_num
    have hq0abs : |(0.0000966 : ℝ)| ≤ 1 := by rw [abs_of_pos hq0pos]; norm_num
    have hcb := abs_le.mp (@Real.cos_bound (0.0000966 : ℝ) hq0abs)
    rw [abs_of_pos hq0pos] at hcb
    have hcos_l : (0.999999995 : ℝ) ≤ Real.cos 0.0000966 := by
      have h4 : ((0.0000966 : ℝ)) ^ 2 ≤ 0.0000000094 := by norm_num
      have h5 : ((0.0000966 : ℝ)) ^ 4 ≤ 0.0000000000000001 := by norm_num
      linarith [hcb.1]
    have hsin_u : Real.sin 0.0000966 ≤ 0.0000966 := le_of_lt (Real.sin_lt hq0pos)
    rw [Real.tan_eq_sin_div_cos]
    have h6 : Real.sin 0.0000966 / Real.cos 0.0000966 ≤ 0.0000966 / 0.999999995 :=
      div_le_div (by norm_num) hsin_u (by norm_num) hcos_l
    calc Real.sin 0.0000966 / Real.cos 0.0000966 ≤ 0.0000966 / 0.999999995 := h6
      _ ≤ 0.000096818 := by norm_num
  have hq0_lt : (0.0000966 : ℝ) < Real.pi / 2 := by linarith [Real.pi_gt_d6]
  have hth_l : (0.0000966 : ℝ) ≤ Real.arctan (Real.sqrt A / Real.sqrt (1 - A)) :=
    le_arctan_of_tan_le (by norm_num) hq0_lt (le_trans htan hu_l)
  constructor
  · linarith
  · linarith

/-- C5 counterexample: the distance computed by the model between
(21.4225, 39.8262) and (21.43, 39.835) does NOT lie in the claimed band
[1022, 1040]: it is at least 1230 meters. -/
theorem C5_fixture_counterexample :
    ¬(1022 ≤ calculateDistance 21.4225 39.8262 21.43 39.835 ∧
        calculateDistance 21.4225 39.8262 21.43 39.835 ≤ 1040) := by
  intro h
  have hb := fixture_distance_bounds
  linarith [hb.1, h.2]

/-- C5 amended: the distance between (21.4225, 39.8262) and (21.43, 39.835)
lies in the band [1230, 1240] meters (the true value is about 1235 m). -/
theorem C5_fixture_amended :
    (1230 : ℝ) ≤ calculateDistance 21.4225 39.8262 21.43 39.835 ∧
      calculateDistance 21.4225 39.8262 21.43 39.835 ≤ 1240 :=
  fixture_distance_bounds
